import Mathlib

/-!
# Verification of the options strategy scanner (src/app.py)

A shallow embedding of the strategy construction and scoring engine.
Prices, strikes, deltas and quotes are modelled as exact rationals;
the Black-Scholes delta primitive, which is genuinely real-valued, is
modelled over the reals in its own section.  Exceptions of the Python
code are modelled with Except.  Field names follow the dictionary keys
used by the source.
-/

/-- Option type tag, the literal values of the `type` column set by
process_chain (app.py line 40). -/
inductive OptType where
  | call
  | put
deriving DecidableEq

/-- Side of a leg as rendered in the `legs` dictionaries of the source
(SELL, BUY and the ratio branch value `SELL x2`, app.py line 289). -/
inductive Side where
  | buy
  | sell
  | sell2
deriving DecidableEq

/-- One raw row of an option chain table as delivered by the data
collaborator: columns strike, bid, ask, impliedVolatility,
openInterest, volume (spec section 3, consumed in app.py lines 38-42). -/
structure ChainRow where
  strike : ℚ
  bid : ℚ
  ask : ℚ
  impliedVolatility : ℚ
  openInterest : ℤ
  volume : ℤ
deriving DecidableEq

/-- A normalized leg: a chain row after process_chain annotated it with
its option `type` and computed `delta` columns (app.py lines 40-41).
The delta column of the source is a float computed by
black_scholes_delta; in this rational model it is carried as data. -/
structure Leg extends ChainRow where
  type : OptType
  delta : ℚ
deriving DecidableEq

/-- One entry of the `legs` list of an opportunity record
(side/type/strike dictionaries, e.g. app.py line 68). -/
structure LegSpec where
  side : Side
  type : OptType
  strike : ℚ
deriving DecidableEq

/-- A vertical spread record as produced by build_spread (app.py lines
62-69).  The textual `desc` field of the source is determined by the
`legs` field and is not carried separately. -/
structure Spread where
  price_display : ℚ
  capital : ℚ
  roi : ℚ
  delta : ℚ
  breakeven : ℚ
  legs : List LegSpec
deriving DecidableEq

/-- A generic opportunity record appended to `all_opps` by the strategy
branches of fetch_market_data.  Only the numeric fields that the claims
are about are carried; `breakeven` of these branches is a display
string in the source and is omitted. -/
structure Opp where
  price_display : ℚ
  capital : ℚ
  roi : ℚ
  delta : ℚ
  legs : List LegSpec
deriving DecidableEq

/-- The target strike of the protective long leg for a short anchor
(app.py line 56): `strike - width` for puts, `strike + width` for
calls. -/
def long_target (width : ℚ) (s : Leg) : ℚ :=
  if s.type = OptType.put then s.strike - width else s.strike + width

/-- The spread dictionary built for a matched (short, long) pair
(app.py lines 60-69) with net = s.bid - l.ask: price_display = net,
capital = (width - net) * 100, roi = net / (width - net), delta =
s.delta - l.delta, breakeven = strike minus net for puts and strike
plus net for calls, legs = [SELL s, BUY l]. -/
def spread_record (width : ℚ) (s l : Leg) : Spread :=
  { price_display := s.bid - l.ask
    capital := (width - (s.bid - l.ask)) * 100
    roi := (s.bid - l.ask) / (width - (s.bid - l.ask))
    delta := s.delta - l.delta
    breakeven := if s.type = OptType.put then s.strike - (s.bid - l.ask)
                 else s.strike + (s.bid - l.ask)
    legs := [⟨Side.sell, s.type, s.strike⟩, ⟨Side.buy, l.type, l.strike⟩] }

/-- One iteration of the build_spread loop (app.py lines 55-69): take
the first row of `longs` whose strike is within 0.1 of the target; if
one exists and the net credit `s.bid - l.ask` exceeds 0.01, emit the
spread record, otherwise nothing. -/
def spread_of_short (longs : List Leg) (width : ℚ) (s : Leg) :
    Option Spread :=
  match (longs.filter fun l => |l.strike - long_target width s| < 1/10).head? with
  | none => none
  | some l =>
    if 1/100 < s.bid - l.ask then some (spread_record width s l) else none

/-- build_spread (app.py lines 53-70): run the loop body over the
short anchors in table order, collecting the emitted spread records. -/
def build_spread (longs : List Leg) (shorts : List Leg) (width : ℚ) :
    List Spread :=
  shorts.filterMap (spread_of_short longs width)

/-- process_chain (app.py lines 38-42): annotate each row of one raw
table with its option type and its computed delta column, then keep the
rows with `openInterest > 5` and `bid > 0`.  The delta column of the
source is the float `black_scholes_delta(current_price, strike,
days/365, rate, iv, type)`; that real-valued primitive is modelled
separately below, so here the per-row delta computation is passed in as
`delta_of`.  The liquidity gate never reads it. -/
def process_chain (delta_of : ChainRow → ℚ) (df : List ChainRow)
    (t : OptType) : List Leg :=
  ((df.map fun r => { toChainRow := r, type := t, delta := delta_of r }).filter
    fun l => 5 < l.openInterest && 0 < l.bid)

/-- The row of `l` minimizing `f`, first one on ties: the source picks
`iloc[argsort(keys)[:1]]` (app.py lines 293-294); for a strict minimum
the two agree, and all concrete inputs below use strict minima. -/
def argmin_of (f : Leg → ℚ) : List Leg → Option Leg
  | [] => none
  | x :: xs => some (xs.foldl (fun b a => if f a < f b then a else b) x)

/-- The opportunity record appended by the STRADDLE branch (app.py
lines 296-304) for nearest-delta call `c` and put `p`:
cost = c.ask + p.ask; the two BUY legs keep their own strikes. -/
def straddle_opp (c p : Leg) : Opp :=
  { price_display := c.ask + p.ask
    capital := (c.ask + p.ask) * 100
    roi := 0
    delta := c.delta + p.delta
    legs := [⟨Side.buy, OptType.call, c.strike⟩,
             ⟨Side.buy, OptType.put, p.strike⟩] }

/-- The STRADDLE branch for one expiration (app.py lines 292-304):
`atm_c` is the call nearest delta 0.5, `atm_p` the put whose |delta| is
nearest 0.5.  If the call table is empty nothing is emitted; otherwise
the source reads `atm_p.iloc[0]`, which raises IndexError when the put
table is empty (modelled as `Except.error`), and otherwise appends one
candidate built from the two nearest-delta legs. -/
def straddle_branch (calls puts : List Leg) : Except Unit (List Opp) :=
  match argmin_of (fun l => |l.delta - 1/2|) calls with
  | none => Except.ok []
  | some c =>
    match argmin_of (fun l => |(|l.delta|) - 1/2|) puts with
    | none => Except.error ()
    | some p => Except.ok [straddle_opp c p]

/-- Put-side short anchors of the IRON_CONDOR branch (app.py line 234):
rows with delta strictly between -0.25 and -0.15. -/
def put_short_filter (puts : List Leg) : List Leg :=
  puts.filter fun r => (-1/4 < r.delta) && (r.delta < -(3/20))

/-- Call-side short anchors of the IRON_CONDOR branch (app.py line
235): rows with delta strictly between 0.15 and 0.25. -/
def call_short_filter (calls : List Leg) : List Leg :=
  calls.filter fun r => (r.delta < 1/4) && (3/20 < r.delta)

/-- Pairing step of the IRON_CONDOR branch (app.py lines 243-255):
net = putSpread.price + callSpread.price, loss = width - net; the pair
yields a condor record only when loss > 0, with capital = loss * 100
and roi = net / loss; its legs are the put spread legs followed by the
call spread legs. -/
def iron_condor_pair (spread_width : ℚ) (p c : Spread) : Option Opp :=
  let net := p.price_display + c.price_display
  let loss := spread_width - net
  if 0 < loss then
    some { price_display := net
           capital := loss * 100
           roi := net / loss
           delta := p.delta + c.delta
           legs := p.legs ++ c.legs }
  else none

/-- The IRON_CONDOR branch for one expiration (app.py lines 233-255):
build the put-side and call-side vertical spreads with build_spread,
and when both lists are non-empty cross-join the first three records
of each (`.head(3)`, in construction order) through iron_condor_pair. -/
def iron_condor_branch (calls puts : List Leg) (spread_width : ℚ) :
    List Opp :=
  let p_spr := build_spread puts (put_short_filter puts) spread_width
  let c_spr := build_spread calls (call_short_filter calls) spread_width
  if p_spr.isEmpty || c_spr.isEmpty then []
  else
    (p_spr.take 3).flatMap fun p =>
      (c_spr.take 3).filterMap fun c => iron_condor_pair spread_width p c

/-- Insert a spread into a list sorted by descending roi. -/
def insert_roi_desc (s : Spread) : List Spread → List Spread
  | [] => [s]
  | t :: ts => if t.roi < s.roi then s :: t :: ts else t :: insert_roi_desc s ts

/-- Sort spreads by descending roi (insertion sort). -/
def sort_roi_desc (l : List Spread) : List Spread :=
  l.foldr insert_roi_desc []

/-- Modelled from the spec: the top-k spread candidates of one side
ranked by their individual ROI, which the spec says are the only ones
cross-joined when building iron condors.  The source has no such
ranking (it takes `.head(3)` of the unsorted list); this definition
exists to compare the two. -/
def top_k_by_roi (k : ℕ) (l : List Spread) : List Spread :=
  (sort_roi_desc l).take k

/-- The short strike recorded in a spread: the strike of its first
(SELL) leg. -/
def spread_short_strike (s : Spread) : Option ℚ :=
  s.legs.head?.map LegSpec.strike

/-- The put-side short strike of a condor record: the strike of its
first leg (the put spread legs come first). -/
def opp_put_short_strike (o : Opp) : Option ℚ :=
  o.legs.head?.map LegSpec.strike

/-- The annualization step (app.py line 311): each record gets
annualized_return = roi * (365 / days_to_exp) when its roi field is
positive and 0 otherwise. -/
def annualized_return (roi : ℚ) (days_to_exp : ℚ) : ℚ :=
  if 0 < roi then roi * (365 / days_to_exp) else 0

/-- The roi field of a LONG_CALL record (app.py line 186):
(current_price / ask) * 0.5, a leverage multiple, not a periodic
return.  (The LONG_PUT branch, line 196, uses the same formula.) -/
def long_call_roi (current_price ask : ℚ) : ℚ :=
  current_price / ask * (1/2)

/-- One row of `all_opps` as it stands after a same-expiration branch
ran: the opportunity record together with the days_to_exp attached to
it (app.py, each branch stores `days_to_exp: days`). -/
structure ScanRow where
  opp : Opp
  days_to_exp : ℕ
deriving DecidableEq

/-- The per-expiration scan loop (app.py lines 151-306): the body of
`for date, days in target_dates` is wrapped in `try: ... except:
continue`.  `process d` returns the records the body appended to
`all_opps` before it either finished or raised, together with a flag
saying whether it raised; appended records survive an exception, the
except clause swallows the exception, and the loop continues with the
next expiration, so the flag does not influence the accumulated list. -/
def scan_expirations (process : String → List ScanRow × Bool)
    (dates : List String) : List ScanRow :=
  dates.foldl (fun acc d => acc ++ (process d).1) []

/-- The message returned when no branch produced any candidate
(app.py line 308). -/
def no_opps_msg : String := "未扫描到符合策略逻辑的期权"

/-- End of the scan (app.py lines 308-312): if `all_opps` is empty the
scan reports the no-opportunities message; otherwise it returns the
accumulated records with the annualization column of line 311
attached. -/
def fetch_result (process : String → List ScanRow × Bool)
    (dates : List String) : Except String (List (ScanRow × ℚ)) :=
  if (scan_expirations process dates).isEmpty then Except.error no_opps_msg
  else Except.ok ((scan_expirations process dates).map fun row =>
    (row, annualized_return row.opp.roi (row.days_to_exp : ℚ)))

/-- A calendar date. -/
structure Date where
  year : ℕ
  month : ℕ
  day : ℕ
deriving DecidableEq

/-- Chronological encoding of a date; for calendar dates (month and
day below 100) comparing these numbers is the comparison that
`datetime.date` order performs. -/
def date_to_nat (d : Date) : ℕ := d.year * 10000 + d.month * 100 + d.day

/-- The `expiration_date` field of a surfaced record, by the three
formats the source writes into it: a plain date string (every
same-expiration branch), `"Near: {near} / Far: {far}"` (PMCC, app.py
line 115) and `"Short: {near} / Long: {far}"` (Calendar, line 131). -/
inductive ExpField where
  | single (d : Date)
  | nearFar (near far : Date)
  | shortLong (near far : Date)
deriving DecidableEq

/-- The date the earnings check examines (app.py lines 388-390): the
field is split on `" / "` and the LAST component is kept (for the
two-expiration formats that is the `Far:` or `Long:` component, whose
label the replace calls strip); a plain date field is kept as is. -/
def exam_exp_date : ExpField → Date
  | ExpField.single d => d
  | ExpField.nearFar _ f => f
  | ExpField.shortLong _ f => f

/-- The earnings warning condition (app.py line 392): the candidate is
tagged as having earnings risk iff the next-earnings date is on or
before the examined expiration date. -/
def has_earnings_risk (next_earnings : Date) (e : ExpField) : Bool :=
  decide (date_to_nat next_earnings ≤ date_to_nat (exam_exp_date e))

/-- The nearer expiration of a candidate, which the claim says the
earnings comparison uses. -/
def nearer_exp_date : ExpField → Date
  | ExpField.single d => d
  | ExpField.nearFar n _ => n
  | ExpField.shortLong n _ => n

/-- The standard normal cumulative distribution function, the
`scipy.stats.norm.cdf` of the source. -/
noncomputable def norm_cdf (x : ℝ) : ℝ :=
  (ProbabilityTheory.gaussianReal 0 1 (Set.Iic x)).toReal

/-- black_scholes_delta (app.py lines 32-36), over the reals.  The
source returns 0 when `T <= 0 or sigma <= 0`; otherwise it evaluates
`np.log(S / K)` with NO exception handling around it, so a non-positive
spot/strike ratio (for example K = 0, where the division itself blows
up, or a negative spot) is a numerical error that escapes the function;
that escape is modelled as `Except.error ()`.  In the remaining cases
d1 = (log(S/K) + (r + 0.5 sigma^2) T) / (sigma sqrt T) and the call
delta is norm_cdf d1, the put delta norm_cdf d1 - 1. -/
noncomputable def black_scholes_delta (S K T r sigma : ℝ)
    (option_type : OptType) : Except Unit ℝ :=
  if T ≤ 0 ∨ sigma ≤ 0 then Except.ok 0
  else if S / K ≤ 0 then Except.error ()
  else
    let d1 := (Real.log (S / K) + (r + (1/2) * sigma ^ 2) * T) /
      (sigma * Real.sqrt T)
    if option_type = OptType.call then Except.ok (norm_cdf d1)
    else Except.ok (norm_cdf d1 - 1)

/-! ## Concrete fixture data for counterexamples and witnesses -/

/-- A put leg with the given strike, bid, ask and delta (fixture). -/
def mk_put (strike bid ask delta : ℚ) : Leg :=
  { strike := strike, bid := bid, ask := ask, impliedVolatility := 1/2,
    openInterest := 50, volume := 0, type := OptType.put, delta := delta }

/-- A call leg with the given strike, bid, ask and delta (fixture). -/
def mk_call (strike bid ask delta : ℚ) : Leg :=
  { strike := strike, bid := bid, ask := ask, impliedVolatility := 1/2,
    openInterest := 50, volume := 0, type := OptType.call, delta := delta }

/-- Fixture: a short put quoted at bid 7, five strike units above a
long put asked at 1, so the net credit 6 exceeds the width 5. -/
def degenerate_short : Leg := mk_put 100 7 8 (-1/5)

/-- Fixture: the matching long put of the degenerate pair. -/
def degenerate_long : Leg := mk_put 95 (1/2) 1 (-1/10)

/-- Fixture call table for the straddle branch: a single call at
strike 100 with delta exactly 0.5. -/
def st_calls : List Leg := [mk_call 100 (9/5) 2 (1/2)]

/-- Fixture put table for the straddle branch: a single put at strike
95 (a DIFFERENT strike) with delta exactly -0.5. -/
def st_puts : List Leg := [mk_put 95 (9/5) 2 (-1/2)]

/-- Fixture row with positive bid, openInterest 8 and volume 0: kept
by the code (openInterest > 5) though openInterest <= 10 and
volume <= 5. -/
def row_oi8 : ChainRow :=
  { strike := 100, bid := 1, ask := 2, impliedVolatility := 1/2,
    openInterest := 8, volume := 0 }

/-- Fixture row with positive bid, openInterest 0 and volume 10:
dropped by the code (openInterest <= 5) though bid > 0 and
volume > 5. -/
def row_vol10 : ChainRow :=
  { strike := 105, bid := 1, ask := 2, impliedVolatility := 1/2,
    openInterest := 0, volume := 10 }

/-- A constant delta annotation for fixtures; the liquidity gate of
process_chain never reads the delta column. -/
def const_delta : ChainRow → ℚ := fun _ => 0

/-- Fixture put table for the iron condor branch: four short anchors
(delta -0.2) at strikes 100, 99, 98, 97 whose spreads have strictly
increasing net credit (0.5, 1, 1.5, 2), and their protective long
strikes five units lower. -/
def ic_puts : List Leg :=
  [ mk_put 100 1 (3/2) (-1/5), mk_put 99 (3/2) 2 (-1/5),
    mk_put 98 2 (5/2) (-1/5), mk_put 97 (5/2) 3 (-1/5),
    mk_put 95 (1/4) (1/2) (-1/10), mk_put 94 (1/4) (1/2) (-1/10),
    mk_put 93 (1/4) (1/2) (-1/10), mk_put 92 (1/4) (1/2) (-1/10) ]

/-- Fixture call table for the iron condor branch: one short anchor at
strike 110 and its protective long at 115. -/
def ic_calls : List Leg :=
  [ mk_call 110 1 (3/2) (1/5), mk_call 115 (1/4) (1/2) (1/10) ]

/-- Fixture opportunity record for the scan-loop theorems. -/
def wit_opp : Opp :=
  { price_display := 1, capital := 450, roi := 1/9, delta := -1/10,
    legs := [⟨Side.sell, OptType.put, 100⟩] }

/-- Fixture per-expiration processor: the first expiration raises
before appending anything (flag true), the second appends one record
and finishes normally. -/
def wit_process : String → List ScanRow × Bool := fun d =>
  if d = "2026-01-16" then ([], true)
  else if d = "2026-02-20" then ([⟨wit_opp, 35⟩], false)
  else ([], false)

/-- Fixture: the first condor that the iron condor branch emits on the
ic fixture tables (put spread 100/95 with net 0.5, call spread 110/115
with net 0.5). -/
def ic_first_condor : Opp :=
  { price_display := 1, capital := 400, roi := 1/4, delta := 0,
    legs := [⟨Side.sell, OptType.put, 100⟩, ⟨Side.buy, OptType.put, 95⟩,
             ⟨Side.sell, OptType.call, 110⟩, ⟨Side.buy, OptType.call, 115⟩] }

/-! ## Helper lemmas -/

/-- The two option type tags are distinct (rewriting form). -/
theorem optype_call_eq_put : (OptType.call = OptType.put) = False := by simp

/-- Shape of a successful loop iteration of build_spread: the matched
long leg is the head of the tolerance filter, the net credit clears
the 0.01 floor, and the result is the corresponding spread record. -/
theorem spread_of_short_eq_some (longs : List Leg) (width : ℚ) (s : Leg)
    (sp : Spread) (h : spread_of_short longs width s = some sp) :
    ∃ l, (longs.filter fun l => |l.strike - long_target width s| < 1/10).head? =
        some l ∧ 1/100 < s.bid - l.ask ∧ sp = spread_record width s l := by
  unfold spread_of_short at h
  cases hh : (longs.filter fun l => |l.strike - long_target width s| < 1/10).head? with
  | none => rw [hh] at h; exact absurd h (by simp)
  | some l =>
    rw [hh] at h
    dsimp only at h
    by_cases hc : 1/100 < s.bid - l.ask
    · rw [if_pos hc] at h
      exact ⟨l, rfl, hc, (Option.some.inj h).symm⟩
    · rw [if_neg hc] at h
      exact absurd h (by simp)

/-- Shape of a successful condor pairing: positive max loss and the
field equations of the emitted record. -/
theorem iron_condor_pair_eq_some (width : ℚ) (p c : Spread) (o : Opp)
    (h : iron_condor_pair width p c = some o) :
    0 < width - (p.price_display + c.price_display) ∧
      o.price_display = p.price_display + c.price_display ∧
      o.capital = (width - (p.price_display + c.price_display)) * 100 ∧
      o.legs = p.legs ++ c.legs := by
  simp only [iron_condor_pair] at h
  by_cases hc : 0 < width - (p.price_display + c.price_display)
  · rw [if_pos hc] at h
    obtain rfl := Option.some.inj h
    exact ⟨hc, rfl, rfl, rfl⟩
  · rw [if_neg hc] at h
    exact absurd h (by simp)

/-- Folding the scan loop from any accumulator prepends the
accumulator to the scan of the remaining dates. -/
theorem scan_expirations_foldl (process : String → List ScanRow × Bool)
    (l : List String) (a : List ScanRow) :
    l.foldl (fun acc d => acc ++ (process d).1) a =
      a ++ scan_expirations process l := by
  induction l generalizing a with
  | nil => simp [scan_expirations]
  | cons d ds ih =>
    rw [scan_expirations, List.foldl_cons, List.foldl_cons, ih,
      List.nil_append, ih ((process d).1), ← List.append_assoc]

/-! ## Claim theorems -/

/-- C1, amended: every record emitted by build_spread has
capitalAtRisk = (width - netPrice) * 100 and net credit above the 0.01
floor; inclusion is decided only by that floor (and a matched long
within tolerance), so degenerate pairs with net credit at or above the
width are NOT excluded and capitalAtRisk is not always positive. -/
theorem C1_spread_capital_formula (longs shorts : List Leg) (width : ℚ)
    (sp : Spread) (hsp : sp ∈ build_spread longs shorts width) :
    sp.capital = (width - sp.price_display) * 100 ∧
      1/100 < sp.price_display := by
  rw [build_spread, List.mem_filterMap] at hsp
  obtain ⟨s, _, h⟩ := hsp
  obtain ⟨l, _, hc, rfl⟩ := spread_of_short_eq_some longs width s sp h
  exact ⟨rfl, hc⟩

/-- Witness for C1: the formula instantiated on the degenerate fixture
pair, whose membership in the output is computed concretely. -/
theorem C1_spread_capital_formula_witness :
    (spread_record 5 degenerate_short degenerate_long).capital =
        (5 - (spread_record 5 degenerate_short degenerate_long).price_display) * 100 ∧
      1/100 < (spread_record 5 degenerate_short degenerate_long).price_display := by
  have h : build_spread [degenerate_long] [degenerate_short] 5 =
      [spread_record 5 degenerate_short degenerate_long] := by
    norm_num [build_spread, spread_of_short, long_target, spread_record,
      degenerate_short, degenerate_long, mk_put, List.filterMap, List.filter]
  exact C1_spread_capital_formula [degenerate_long] [degenerate_short] 5
    (spread_record 5 degenerate_short degenerate_long)
    (by rw [h]; exact List.mem_singleton.mpr rfl)

/-- C1, counterexample: the pair with net credit 6 on width 5 is
degenerate (netPrice above the width), yet build_spread emits it, with
capitalAtRisk -100, which is not strictly positive. -/
theorem C1_counterexample :
    build_spread [degenerate_long] [degenerate_short] 5 =
      [spread_record 5 degenerate_short degenerate_long] ∧
    (spread_record 5 degenerate_short degenerate_long).price_display = 6 ∧
    (spread_record 5 degenerate_short degenerate_long).capital = -100 := by
  refine ⟨?_, ?_, ?_⟩
  · norm_num [build_spread, spread_of_short, long_target, spread_record,
      degenerate_short, degenerate_long, mk_put, List.filterMap, List.filter]
  · norm_num [spread_record, degenerate_short, degenerate_long, mk_put]
  · norm_num [spread_record, degenerate_short, degenerate_long, mk_put]

/-- C2, amended: whenever both filtered tables of an expiration are
non-empty, the STRADDLE branch emits exactly one candidate, built from
the call nearest delta 0.5 and the put nearest |delta| 0.5, with NO
comparison of their strikes. -/
theorem C2_straddle_no_strike_check (calls puts : List Leg)
    (hc : calls ≠ []) (hp : puts ≠ []) :
    ∃ c p, argmin_of (fun l => |l.delta - 1/2|) calls = some c ∧
      argmin_of (fun l => |(|l.delta|) - 1/2|) puts = some p ∧
      straddle_branch calls puts = Except.ok [straddle_opp c p] := by
  cases calls with
  | nil => exact absurd rfl hc
  | cons c0 cs =>
    cases puts with
    | nil => exact absurd rfl hp
    | cons p0 ps => exact ⟨_, _, rfl, rfl, rfl⟩

/-- Witness for C2 on the fixture tables whose nearest-delta legs sit
at different strikes. -/
theorem C2_straddle_no_strike_check_witness :
    ∃ c p, argmin_of (fun l => |l.delta - 1/2|) st_calls = some c ∧
      argmin_of (fun l => |(|l.delta|) - 1/2|) st_puts = some p ∧
      straddle_branch st_calls st_puts = Except.ok [straddle_opp c p] :=
  C2_straddle_no_strike_check st_calls st_puts
    (by simp [st_calls]) (by simp [st_puts])

/-- C2, counterexample: the nearest-delta call sits at strike 100 and
the nearest-delta put at strike 95, yet a straddle candidate IS
emitted for that expiration (its two BUY legs carry the two different
strikes). -/
theorem C2_counterexample :
    straddle_branch st_calls st_puts =
      Except.ok [straddle_opp (mk_call 100 (9/5) 2 (1/2))
        (mk_put 95 (9/5) 2 (-1/2))] ∧
    (straddle_opp (mk_call 100 (9/5) 2 (1/2))
        (mk_put 95 (9/5) 2 (-1/2))).legs.map LegSpec.strike = [100, 95] ∧
    (100 : ℚ) ≠ 95 := by
  exact ⟨rfl, rfl, by norm_num⟩

/-- C3, amended: the chain normalizer keeps exactly the rows with
bid > 0 and openInterest > 5, dropping every other row silently; the
volume column is never consulted. -/
theorem C3_liquidity_gate (delta_of : ChainRow → ℚ) (rows : List ChainRow)
    (t : OptType) (r : ChainRow) :
    (∃ l ∈ process_chain delta_of rows t, l.toChainRow = r) ↔
      r ∈ rows ∧ 5 < r.openInterest ∧ 0 < r.bid := by
  simp only [process_chain, List.mem_filter, List.mem_map,
    Bool.and_eq_true, decide_eq_true_eq]
  constructor
  · rintro ⟨l, ⟨⟨r', hr', rfl⟩, hoi, hbid⟩, rfl⟩
    exact ⟨hr', hoi, hbid⟩
  · rintro ⟨hr, hoi, hbid⟩
    exact ⟨{ toChainRow := r, type := t, delta := delta_of r },
      ⟨⟨r, hr, rfl⟩, hoi, hbid⟩, rfl⟩

/-- Witness for C3: the gate characterization instantiated on the
fixture rows. -/
theorem C3_liquidity_gate_witness :
    (∃ l ∈ process_chain const_delta [row_oi8, row_vol10] OptType.put,
        l.toChainRow = row_oi8) ↔
      row_oi8 ∈ [row_oi8, row_vol10] ∧ 5 < row_oi8.openInterest ∧
        0 < row_oi8.bid :=
  C3_liquidity_gate const_delta [row_oi8, row_vol10] OptType.put row_oi8

/-- C3, counterexample: the row with openInterest 8 and volume 0 is
kept although openInterest is at most 10 and volume is at most 5, and
the row with bid 1 and volume 10 is dropped although the claimed
policy keeps it. -/
theorem C3_counterexample :
    process_chain const_delta [row_oi8, row_vol10] OptType.put =
      [{ toChainRow := row_oi8, type := OptType.put, delta := 0 }] ∧
    row_oi8.openInterest ≤ 10 ∧ row_oi8.volume ≤ 5 ∧
    0 < row_vol10.bid ∧ 5 < row_vol10.volume := by
  refine ⟨?_, by norm_num [row_oi8], by norm_num [row_oi8],
    by norm_num [row_vol10], by norm_num [row_vol10]⟩
  norm_num [process_chain, const_delta, row_oi8, row_vol10, List.filter]

/-- C4, amended: the degenerate guard T <= 0 or sigma <= 0 returns
exactly 0, and in the non-degenerate region a value is returned when
the spot/strike ratio is positive; but the function contains no
exception handling: a non-positive spot/strike ratio (log domain
error, or the division blowing up at K = 0) escapes the function
instead of being mapped to delta = 0. -/
theorem C4_delta_no_exception_handling (S K T r sigma : ℝ) (b : OptType) :
    (T ≤ 0 ∨ sigma ≤ 0 →
      black_scholes_delta S K T r sigma b = Except.ok 0) ∧
    (0 < T → 0 < sigma → S / K ≤ 0 →
      black_scholes_delta S K T r sigma b = Except.error ()) ∧
    (0 < T → 0 < sigma → 0 < S / K →
      ∃ y, black_scholes_delta S K T r sigma b = Except.ok y) := by
  refine ⟨fun h => ?_, fun hT hs hSK => ?_, fun hT hs hSK => ?_⟩
  · rw [black_scholes_delta, if_pos h]
  · rw [black_scholes_delta, if_neg (by push_neg; exact ⟨hT, hs⟩),
      if_pos hSK]
  · rw [black_scholes_delta, if_neg (by push_neg; exact ⟨hT, hs⟩),
      if_neg (not_le.mpr hSK)]
    by_cases hb : b = OptType.call
    · rw [if_pos hb]; exact ⟨_, rfl⟩
    · rw [if_neg hb]; exact ⟨_, rfl⟩

/-- Witness for C4: the guard value at T = 0 and the escaping error at
S = -1 (log of a negative ratio), concretely. -/
theorem C4_delta_no_exception_handling_witness :
    black_scholes_delta 1 1 0 (9/200) 1 OptType.call = Except.ok 0 ∧
      black_scholes_delta (-1) 1 1 (9/200) 1 OptType.put =
        Except.error () :=
  ⟨(C4_delta_no_exception_handling 1 1 0 (9/200) 1 OptType.call).1
      (Or.inl le_rfl),
   (C4_delta_no_exception_handling (-1) 1 1 (9/200) 1 OptType.put).2.1
      one_pos one_pos (by norm_num)⟩

/-- C4, counterexample: at K = 0 (with T = 1, sigma = 1) the division
and logarithm blow up and the error escapes: the function does not
return a value, in particular not delta = 0. -/
theorem C4_counterexample :
    black_scholes_delta 1 0 1 (9/200) 1 OptType.call = Except.error () ∧
    (Except.error () : Except Unit ℝ) ≠ Except.ok 0 := by
  constructor
  · rw [black_scholes_delta, if_neg (by norm_num), if_pos (by norm_num)]
  · exact fun h => Except.noConfusion h

/-- C5, confirmed: for S > 0, K > 0, T > 0, sigma > 0 the call delta
and the put delta are both returned and their difference is exactly 1
(both equal norm_cdf d1 and norm_cdf d1 - 1 at the same d1). -/
theorem C5_put_call_delta_parity (S K T r sigma : ℝ)
    (hS : 0 < S) (hK : 0 < K) (hT : 0 < T) (hs : 0 < sigma) :
    ∃ dc dp,
      black_scholes_delta S K T r sigma OptType.call = Except.ok dc ∧
      black_scholes_delta S K T r sigma OptType.put = Except.ok dp ∧
      dc - dp = 1 := by
  have h1 : ¬(T ≤ 0 ∨ sigma ≤ 0) := by push_neg; exact ⟨hT, hs⟩
  have h2 : ¬(S / K ≤ 0) := not_le.mpr (div_pos hS hK)
  refine ⟨norm_cdf ((Real.log (S / K) + (r + (1/2) * sigma ^ 2) * T) /
      (sigma * Real.sqrt T)),
    norm_cdf ((Real.log (S / K) + (r + (1/2) * sigma ^ 2) * T) /
      (sigma * Real.sqrt T)) - 1, ?_, ?_, by ring⟩
  · rw [black_scholes_delta, if_neg h1, if_neg h2]
    simp
  · rw [black_scholes_delta, if_neg h1, if_neg h2]
    simp

/-- Witness for C5 at S = 2, K = 1, T = 1, r = 0.045, sigma = 1. -/
theorem C5_put_call_delta_parity_witness :
    ∃ dc dp,
      black_scholes_delta 2 1 1 (9/200) 1 OptType.call = Except.ok dc ∧
      black_scholes_delta 2 1 1 (9/200) 1 OptType.put = Except.ok dp ∧
      dc - dp = 1 :=
  C5_put_call_delta_parity 2 1 1 (9/200) 1 (by norm_num) (by norm_num)
    (by norm_num) (by norm_num)

/-- C6, amended: every emitted condor comes from one of the FIRST
three put-side spreads and one of the FIRST three call-side spreads in
construction order (the `.head(3)` of the source, with no ranking by
ROI), and a pair is kept only when width - netCredit is positive, with
capitalAtRisk = (width - netCredit) * 100. -/
theorem C6_condor_from_first_three (calls puts : List Leg) (width : ℚ)
    (o : Opp) (ho : o ∈ iron_condor_branch calls puts width) :
    ∃ p ∈ (build_spread puts (put_short_filter puts) width).take 3,
      ∃ c ∈ (build_spread calls (call_short_filter calls) width).take 3,
        o.price_display = p.price_display + c.price_display ∧
        0 < width - o.price_display ∧
        o.capital = (width - o.price_display) * 100 ∧
        o.legs = p.legs ++ c.legs := by
  simp only [iron_condor_branch] at ho
  split at ho
  · exact absurd ho (by simp)
  · rw [List.mem_flatMap] at ho
    obtain ⟨p, hp, hmem⟩ := ho
    rw [List.mem_filterMap] at hmem
    obtain ⟨c, hc, hpair⟩ := hmem
    obtain ⟨hpos, hprice, hcap, hlegs⟩ :=
      iron_condor_pair_eq_some width p c o hpair
    exact ⟨p, hp, c, hc, hprice, by rw [hprice]; exact hpos,
      by rw [hprice]; exact hcap, hlegs⟩

/-- Evaluation of the put-side spreads on the ic fixture: the four
anchors produce spreads with net credits 0.5, 1, 1.5, 2 in table
order (so with strictly increasing roi). -/
theorem ic_put_spreads_eval :
    build_spread ic_puts (put_short_filter ic_puts) 5 =
      [spread_record 5 (mk_put 100 1 (3/2) (-1/5)) (mk_put 95 (1/4) (1/2) (-1/10)),
       spread_record 5 (mk_put 99 (3/2) 2 (-1/5)) (mk_put 94 (1/4) (1/2) (-1/10)),
       spread_record 5 (mk_put 98 2 (5/2) (-1/5)) (mk_put 93 (1/4) (1/2) (-1/10)),
       spread_record 5 (mk_put 97 (5/2) 3 (-1/5)) (mk_put 92 (1/4) (1/2) (-1/10))] := by
  norm_num [build_spread, spread_of_short, long_target, put_short_filter,
    ic_puts, mk_put, List.filterMap, List.filter]

/-- Evaluation of the whole iron condor branch on the ic fixture: the
first three put spreads in construction order (short strikes 100, 99,
98) are the ones cross-joined with the single call spread. -/
theorem ic_branch_eval :
    iron_condor_branch ic_calls ic_puts 5 =
      [ic_first_condor,
       { price_display := 3/2, capital := 350, roi := 3/7, delta := 0,
         legs := [⟨Side.sell, OptType.put, 99⟩, ⟨Side.buy, OptType.put, 94⟩,
                  ⟨Side.sell, OptType.call, 110⟩, ⟨Side.buy, OptType.call, 115⟩] },
       { price_display := 2, capital := 300, roi := 2/3, delta := 0,
         legs := [⟨Side.sell, OptType.put, 98⟩, ⟨Side.buy, OptType.put, 93⟩,
                  ⟨Side.sell, OptType.call, 110⟩, ⟨Side.buy, OptType.call, 115⟩] }] := by
  norm_num [iron_condor_branch, build_spread, spread_of_short, long_target,
    spread_record, put_short_filter, call_short_filter, ic_puts, ic_calls,
    mk_put, mk_call, iron_condor_pair, ic_first_condor, optype_call_eq_put,
    List.filterMap, List.filter, List.flatMap, List.take]

/-- Witness for C6: the first condor of the ic fixture, with its
membership computed concretely. -/
theorem C6_condor_from_first_three_witness :
    ic_first_condor ∈ iron_condor_branch ic_calls ic_puts 5 ∧
    ∃ p ∈ (build_spread ic_puts (put_short_filter ic_puts) 5).take 3,
      ∃ c ∈ (build_spread ic_calls (call_short_filter ic_calls) 5).take 3,
        ic_first_condor.price_display = p.price_display + c.price_display ∧
        0 < 5 - ic_first_condor.price_display ∧
        ic_first_condor.capital = (5 - ic_first_condor.price_display) * 100 ∧
        ic_first_condor.legs = p.legs ++ c.legs := by
  have hmem : ic_first_condor ∈ iron_condor_branch ic_calls ic_puts 5 := by
    rw [ic_branch_eval]
    exact List.mem_cons_self _ _
  exact ⟨hmem, C6_condor_from_first_three ic_calls ic_puts 5 ic_first_condor hmem⟩

/-- C6, counterexample: on the ic fixture the emitted condors use the
put spreads with short strikes 100, 99, 98 (the first three in
construction order) although the top three put spreads by ROI are the
ones with short strikes 97, 98, 99; in particular the emitted condor
built on short strike 100 does not come from any top-three-by-ROI put
spread. -/
theorem C6_counterexample :
    (iron_condor_branch ic_calls ic_puts 5).map opp_put_short_strike =
      [some 100, some 99, some 98] ∧
    (top_k_by_roi 3 (build_spread ic_puts (put_short_filter ic_puts) 5)).map
        spread_short_strike = [some 97, some 98, some 99] ∧
    some (100 : ℚ) ∉ [some (97 : ℚ), some 98, some 99] := by
  refine ⟨?_, ?_, by norm_num⟩
  · rw [ic_branch_eval]
    norm_num [opp_put_short_strike, ic_first_condor]
  · rw [ic_put_spreads_eval]
    norm_num [top_k_by_roi, sort_roi_desc, insert_roi_desc, spread_record,
      mk_put, spread_short_strike, List.take]

/-- C7: the annualization of line 311 applies roi * (365 / days) to
EVERY record whose roi field is positive; for a LONG_CALL record the
roi field is the leverage multiple (spot / ask) * 0.5, not a return
rate, and it does get annualized (here 25 becomes 25 * 365 / 30)
instead of being zeroed or flagged.  Records whose roi field is 0
(ratio, calendar, diagonal, LEAPS, straddle, jade lizard branches) do
map to 0. -/
theorem C7_annualizes_leverage_multiple :
    long_call_roi 100 2 = 25 ∧
    annualized_return (long_call_roi 100 2) 30 = 25 * (365 / 30) ∧
    annualized_return (long_call_roi 100 2) 30 ≠ 0 ∧
    annualized_return 0 30 = 0 := by
  norm_num [long_call_roi, annualized_return]

/-- C8, amended: a candidate is tagged with earnings risk iff the
next-earnings date is on or before the date parsed from the LAST
" / " component of its expiration descriptor: the single expiration
for one-date candidates, but the FARTHER (Far:/Long:) expiration for
two-expiration diagonal/calendar candidates. -/
theorem C8_earnings_uses_last_component (e n f : Date) :
    (has_earnings_risk e (ExpField.single f) = true ↔
      date_to_nat e ≤ date_to_nat f) ∧
    (has_earnings_risk e (ExpField.nearFar n f) = true ↔
      date_to_nat e ≤ date_to_nat f) ∧
    (has_earnings_risk e (ExpField.shortLong n f) = true ↔
      date_to_nat e ≤ date_to_nat f) := by
  simp [has_earnings_risk, exam_exp_date]

/-- Witness for C8: the tagging rule instantiated on concrete dates. -/
theorem C8_earnings_uses_last_component_witness :
    (has_earnings_risk ⟨2026, 3, 1⟩ (ExpField.single ⟨2026, 6, 19⟩) = true ↔
      date_to_nat ⟨2026, 3, 1⟩ ≤ date_to_nat ⟨2026, 6, 19⟩) ∧
    (has_earnings_risk ⟨2026, 3, 1⟩
        (ExpField.nearFar ⟨2026, 1, 16⟩ ⟨2026, 6, 19⟩) = true ↔
      date_to_nat ⟨2026, 3, 1⟩ ≤ date_to_nat ⟨2026, 6, 19⟩) ∧
    (has_earnings_risk ⟨2026, 3, 1⟩
        (ExpField.shortLong ⟨2026, 1, 16⟩ ⟨2026, 6, 19⟩) = true ↔
      date_to_nat ⟨2026, 3, 1⟩ ≤ date_to_nat ⟨2026, 6, 19⟩) :=
  C8_earnings_uses_last_component ⟨2026, 3, 1⟩ ⟨2026, 1, 16⟩ ⟨2026, 6, 19⟩

/-- C8, counterexample: for a PMCC candidate with near expiration
2026-01-16 and far expiration 2026-06-19 and next earnings 2026-03-01,
the code tags earnings risk (the earnings date is before the FAR
expiration) although the earnings date is strictly after the nearer
expiration, so the claimed rule says no tag. -/
theorem C8_counterexample :
    has_earnings_risk ⟨2026, 3, 1⟩
      (ExpField.nearFar ⟨2026, 1, 16⟩ ⟨2026, 6, 19⟩) = true ∧
    nearer_exp_date (ExpField.nearFar ⟨2026, 1, 16⟩ ⟨2026, 6, 19⟩) =
      ⟨2026, 1, 16⟩ ∧
    ¬ date_to_nat ⟨2026, 3, 1⟩ ≤ date_to_nat ⟨2026, 1, 16⟩ := by
  refine ⟨by decide, rfl, by decide⟩

/-- C9, confirmed: an expiration whose processing raised (flag true)
still contributes exactly the records it appended before raising, and
the scan continues with the remaining expirations; when the
accumulated set is empty the scan reports the no-opportunities
message, and otherwise it returns every accumulated record (with the
annualization column attached), so a partial result set survives
per-expiration failures. -/
theorem C9_scan_isolates_expiration_failures
    (process : String → List ScanRow × Bool) (d : String)
    (ds : List String) (_hfail : (process d).2 = true) :
    scan_expirations process (d :: ds) =
      (process d).1 ++ scan_expirations process ds ∧
    (scan_expirations process (d :: ds) = [] →
      fetch_result process (d :: ds) = Except.error no_opps_msg) ∧
    (scan_expirations process (d :: ds) ≠ [] →
      ∃ l, fetch_result process (d :: ds) = Except.ok l ∧
        l.length = (scan_expirations process (d :: ds)).length) := by
  refine ⟨?_, fun h => ?_, fun h => ?_⟩
  · rw [scan_expirations, List.foldl_cons, List.nil_append]
    exact scan_expirations_foldl process ds ((process d).1)
  · simp [fetch_result, h]
  · refine ⟨(scan_expirations process (d :: ds)).map fun row =>
      (row, annualized_return row.opp.roi (row.days_to_exp : ℚ)), ?_,
      List.length_map _ _⟩
    rw [fetch_result, if_neg (by simpa [List.isEmpty_iff] using h)]

/-- Witness for C9 on the fixture processor: the first expiration
fails, the second yields one record, and the scan returns it. -/
theorem C9_scan_isolates_expiration_failures_witness :
    (wit_process "2026-01-16").2 = true ∧
    scan_expirations wit_process ["2026-01-16", "2026-02-20"] =
      (wit_process "2026-01-16").1 ++
        scan_expirations wit_process ["2026-02-20"] ∧
    ∃ l, fetch_result wit_process ["2026-01-16", "2026-02-20"] =
        Except.ok l ∧
      l.length =
        (scan_expirations wit_process ["2026-01-16", "2026-02-20"]).length := by
  have hfail : (wit_process "2026-01-16").2 = true := rfl
  have hne : scan_expirations wit_process ["2026-01-16", "2026-02-20"] ≠ [] := by
    intro h
    exact List.cons_ne_nil _ _ (by rw [← h]; rfl)
  obtain ⟨h1, _, h3⟩ := C9_scan_isolates_expiration_failures wit_process
    "2026-01-16" ["2026-02-20"] hfail
  exact ⟨hfail, h1, h3 hne⟩

/-- C10, confirmed: with a non-empty filtered call table and an empty
filtered put table the straddle branch does not return an empty
candidate list for the expiration: it exits through the IndexError of
atm_p.iloc[0], modelled as the error outcome. -/
theorem C10_straddle_empty_puts (calls : List Leg) (hc : calls ≠ []) :
    straddle_branch calls [] = Except.error () ∧
      straddle_branch calls [] ≠ Except.ok [] := by
  cases calls with
  | nil => exact absurd rfl hc
  | cons c0 cs => exact ⟨rfl, fun h => Except.noConfusion h⟩

/-- Witness for C10 on the fixture call table. -/
theorem C10_straddle_empty_puts_witness :
    straddle_branch st_calls [] = Except.error () ∧
      straddle_branch st_calls [] ≠ Except.ok [] :=
  C10_straddle_empty_puts st_calls (by simp [st_calls])

